import Mathlib

/-!
Verification of the slippage, price-impact and virtual-reserve logic of the
btc-launchpad frontend.

The embedded functions follow the TypeScript sources:
* the formatting utilities (`calculateSlippage`, `calculatePriceImpact`);
* `LaunchpadClient.executeSwap`'s inline `minAmountOut` computation and its
  `maxSlippageBps || 100` default;
* `LaunchpadClient.calculateVirtualReserves` / the launch-form preview, which
  forward to the vendor SDK's `calculateVirtualReserves`.

JavaScript `Number` (IEEE double) arithmetic on finite values is idealised as
exact arithmetic: `Number(x)` on a BigInt is taken to be lossless (true for
x < 2^53) and finite products and quotients are taken to be exact.  Division
by zero and the propagation of Infinity and NaN — which JavaScript produces
instead of raising errors — are modelled faithfully by the `JsNum` type.
-/

namespace BtcLaunchpad

/-- `calculateSlippage` from the formatting utilities:
`slippagePercent = slippageBps / 10000; slippageAmount = Number(amount) * slippagePercent;`
`return amount - BigInt(Math.floor(slippageAmount))`.
With the exact-arithmetic idealisation of `Number`, `Math.floor` of the
product is natural-number (floor) division `amount * slippageBps / 10000`. -/
def calculateSlippage (amount slippageBps : ℕ) : ℕ :=
  amount - amount * slippageBps / 10000

/-- The spec's `computeMinAmountOut` contract, written from the spec's words
for comparison with the code:
`minAmountOut = quotedAmountOut * (10000 - maxSlippageBps) / 10000`,
integer division truncating toward zero. -/
def computeMinAmountOut (quotedAmountOut maxSlippageBps : ℕ) : ℕ :=
  quotedAmountOut * (10000 - maxSlippageBps) / 10000

/-- The slippage tolerance actually applied by `LaunchpadClient.executeSwap`:
`const slippageTolerance = params.maxSlippageBps || 100;` — `none` models an
absent field, and the JavaScript `||` turns both `undefined` and `0` into the
default `100`. -/
def executeSwapSlippageTolerance (maxSlippageBps : Option ℕ) : ℕ :=
  match maxSlippageBps with
  | none => 100
  | some b => if b = 0 then 100 else b

/-- The inline `minAmountOut` computation in `LaunchpadClient.executeSwap`:
`minAmountOut = (BigInt(simulation.amountOut) * BigInt(10000 - slippageTolerance)) / BigInt(10000)`,
exact BigInt arithmetic. -/
def executeSwapMinAmountOut (simulatedAmountOut : ℕ) (maxSlippageBps : Option ℕ) : ℕ :=
  simulatedAmountOut * (10000 - executeSwapSlippageTolerance maxSlippageBps) / 10000

/-- A JavaScript number as used by `calculatePriceImpact`: a finite value
(idealised as an exact rational), a signed infinity (`inf true` is `-Infinity`),
or `NaN`. -/
inductive JsNum where
  | fin : ℚ → JsNum
  | inf : Bool → JsNum
  | nan : JsNum
deriving DecidableEq

/-- IEEE-style multiplication on `JsNum` (finite arithmetic idealised as
exact): NaN propagates, `Infinity * 0 = NaN`, infinities keep sign rules. -/
def JsNum.mul : JsNum → JsNum → JsNum
  | nan, _ => nan
  | _, nan => nan
  | inf s, inf t => inf (xor s t)
  | inf s, fin q => if q = 0 then nan else inf (xor s (decide (q < 0)))
  | fin q, inf s => if q = 0 then nan else inf (xor s (decide (q < 0)))
  | fin a, fin b => fin (a * b)

/-- IEEE-style division on `JsNum`: NaN propagates, `Infinity / Infinity = NaN`,
`x / Infinity = 0`, `x / 0` is `NaN` when `x = 0` and a signed infinity
otherwise (the zero divisor is `+0`, as produced by `Number` on a BigInt). -/
def JsNum.div : JsNum → JsNum → JsNum
  | nan, _ => nan
  | _, nan => nan
  | inf _, inf _ => nan
  | inf s, fin q => inf (xor s (decide (q < 0)))
  | fin _, inf _ => fin 0
  | fin a, fin b =>
      if b = 0 then (if a = 0 then nan else inf (decide (a < 0))) else fin (a / b)

/-- IEEE-style subtraction on `JsNum`: NaN propagates,
`Infinity - Infinity = NaN` when the signs agree. -/
def JsNum.sub : JsNum → JsNum → JsNum
  | nan, _ => nan
  | _, nan => nan
  | inf s, inf t => if s = t then nan else inf s
  | inf s, fin _ => inf s
  | fin _, inf s => inf (!s)
  | fin a, fin b => fin (a - b)

/-- `Math.abs` on `JsNum`: `Math.abs(NaN) = NaN`, `Math.abs(±Infinity) = +Infinity`. -/
def JsNum.abs : JsNum → JsNum
  | nan => nan
  | inf _ => inf false
  | fin a => fin |a|

/-- The error taxonomy the spec assigns to the price-impact calculator. -/
inductive CalcError where
  | DivisionByZero
deriving DecidableEq

/-- `calculatePriceImpact` from the formatting utilities:
`expectedOut = (Number(amountIn) * Number(reserveOut)) / Number(reserveIn);`
`impact = ((expectedOut - actualOut) / expectedOut) * 100; return Math.abs(impact)`.
The `Except` layer models the JavaScript exception channel; the source body
contains no `throw`, so every input reaches the `.ok` branch — division by
zero yields Infinity or NaN, never an exception. -/
def calculatePriceImpact (amountIn amountOut reserveIn reserveOut : ℕ) :
    Except CalcError JsNum :=
  let expectedOut := JsNum.div (JsNum.mul (.fin amountIn) (.fin reserveOut)) (.fin reserveIn)
  let actualOut : JsNum := .fin amountOut
  let impact := JsNum.mul (JsNum.div (JsNum.sub expectedOut actualOut) expectedOut) (.fin 100)
  .ok impact.abs

/-- The error taxonomy the spec assigns to the virtual-reserve deriver. -/
inductive LaunchError where
  | InvalidParameters
  | CalculationFailed
deriving DecidableEq

/-- The `VirtualReserves` record of the SDK integration module. -/
structure VirtualReserves where
  virtualReserveA : ℕ
  virtualReserveB : ℕ
  threshold : ℕ
deriving DecidableEq

/-- Modelled from the spec: the vendor function
`FlashnetClient.calculateVirtualReserves`, which
`LaunchpadClient.calculateVirtualReserves` and the launch-form preview call,
is external SDK code absent from this repository's sources.  Per the spec:
inputs are validated (`initialSupply ≥ 1`, `graduationThresholdPct ∈ [50,95]`,
`targetRaise ≥ 1`, violations signal `InvalidParameters`); the result's
`threshold` is the absolute graduation quantity, `graduationThresholdPct`
percent of `initialSupply`; the reserve components parameterise a single-sided
constant-product curve so that selling `threshold` tokens raises `targetRaise`
— their exact vendor formula is declared unspecified by the spec, and the
claims settled here do not depend on them; they are modelled as the
constant-product solution with `virtualReserveA = initialSupply`. -/
def deriveVirtualReserves (initialSupply graduationThresholdPct targetRaise : ℕ) :
    Except LaunchError VirtualReserves :=
  if initialSupply < 1 ∨ graduationThresholdPct < 50 ∨ 95 < graduationThresholdPct ∨
      targetRaise < 1 then
    .error .InvalidParameters
  else
    .ok { virtualReserveA := initialSupply
          virtualReserveB :=
            targetRaise * (100 - graduationThresholdPct) / graduationThresholdPct
          threshold := initialSupply * graduationThresholdPct / 100 }

/-- The mutable state of a `LaunchpadClient` instance: its `client` and
`wallet` fields are `null` until `initialize` succeeds. -/
structure ClientState where
  clientInitialized : Bool
  walletInitialized : Bool
deriving DecidableEq

/-- `LaunchpadClient.calculateVirtualReserves` as a state-passing operation:
the method is `static`, reads no instance or module state and mutates nothing,
so it returns the pure result of `deriveVirtualReserves` and leaves the client
state unchanged. -/
def calculateVirtualReservesCall (s : ClientState) (initialSupply pct targetRaise : ℕ) :
    (Except LaunchError VirtualReserves) × ClientState :=
  (deriveVirtualReserves initialSupply pct targetRaise, s)

/-! ### Evaluation lemmas for `JsNum` arithmetic -/

theorem JsNum.mul_fin_fin (a b : ℚ) : JsNum.mul (.fin a) (.fin b) = .fin (a * b) := rfl

theorem JsNum.mul_nan_left (x : JsNum) : JsNum.mul .nan x = .nan := by
  cases x <;> rfl

theorem JsNum.mul_inf_fin (s : Bool) (q : ℚ) :
    JsNum.mul (.inf s) (.fin q) =
      if q = 0 then .nan else .inf (xor s (decide (q < 0))) := rfl

theorem JsNum.div_fin_fin (a b : ℚ) :
    JsNum.div (.fin a) (.fin b) =
      if b = 0 then (if a = 0 then .nan else .inf (decide (a < 0))) else .fin (a / b) := rfl

theorem JsNum.div_inf_inf (s t : Bool) : JsNum.div (.inf s) (.inf t) = .nan := rfl

theorem JsNum.div_nan_left (x : JsNum) : JsNum.div .nan x = .nan := by
  cases x <;> rfl

theorem JsNum.sub_fin_fin (a b : ℚ) : JsNum.sub (.fin a) (.fin b) = .fin (a - b) := rfl

theorem JsNum.sub_inf_fin (s : Bool) (b : ℚ) : JsNum.sub (.inf s) (.fin b) = .inf s := rfl

theorem JsNum.sub_nan_left (x : JsNum) : JsNum.sub .nan x = .nan := by
  cases x <;> rfl

theorem JsNum.abs_fin (a : ℚ) : JsNum.abs (.fin a) = .fin |a| := rfl

theorem JsNum.abs_nan : JsNum.abs .nan = .nan := rfl

theorem JsNum.abs_inf (s : Bool) : JsNum.abs (.inf s) = .inf false := rfl

/-! ### Core arithmetic lemma shared by the slippage results -/

/-- For `b ≤ 10000`, `calculateSlippage`'s value `a - a*b/10000` exceeds the
spec formula `a*(10000-b)/10000` by exactly one unless `10000` divides `a*b`,
in which case the two agree. -/
theorem calculateSlippage_eq_computeMinAmountOut_add (a b : ℕ) (hb : b ≤ 10000) :
    calculateSlippage a b =
      computeMinAmountOut a b + (if 10000 ∣ a * b then 0 else 1) := by
  unfold calculateSlippage computeMinAmountOut
  have h3 : a * (10000 - b) + a * b = 10000 * a := by
    rw [← Nat.mul_add, Nat.sub_add_cancel hb, Nat.mul_comm]
  generalize hs : a * (10000 - b) = s at h3 ⊢
  generalize ht : a * b = t at h3 ⊢
  split <;> omega

/-- `executeSwap`'s inline computation matches the spec formula whenever the
requested `maxSlippageBps` is nonzero (so the `|| 100` default is not taken). -/
theorem executeSwapMinAmountOut_eq_computeMinAmountOut (a b : ℕ) (hb : 1 ≤ b) :
    executeSwapMinAmountOut a (some b) = computeMinAmountOut a b := by
  have ht : executeSwapSlippageTolerance (some b) = b := by
    show (if b = 0 then 100 else b) = b
    rw [if_neg (by omega)]
  unfold executeSwapMinAmountOut computeMinAmountOut
  rw [ht]

/-! ### Claim theorems -/

/-- C1 counterexample: `calculateSlippage` does not return
`quotedAmountOut * (10000 - maxSlippageBps) / 10000` — at
`quotedAmountOut = 1001`, `maxSlippageBps = 100` it returns `991` while the
claimed formula (the spec's `computeMinAmountOut`) gives `990`. -/
theorem c1_counterexample :
    calculateSlippage 1001 100 = 991 ∧ computeMinAmountOut 1001 100 = 990 := by
  decide

/-- C1 (amended): for `maxSlippageBps ∈ [0,10000]`, `calculateSlippage`
returns `quotedAmountOut - quotedAmountOut*maxSlippageBps/10000`, which equals
the spec formula `quotedAmountOut*(10000-maxSlippageBps)/10000` exactly when
`10000` divides `quotedAmountOut*maxSlippageBps` and exceeds it by one
otherwise; the inline `minAmountOut` computation in `executeSwap` returns the
spec formula for `maxSlippageBps ∈ [1,10000]`, and for `maxSlippageBps = 0` it
substitutes the default `100` basis points. -/
theorem c1_minAmountOut_realisations (a b : ℕ) (hb : b ≤ 10000) :
    calculateSlippage a b =
      computeMinAmountOut a b + (if 10000 ∣ a * b then 0 else 1) ∧
    (1 ≤ b → executeSwapMinAmountOut a (some b) = computeMinAmountOut a b) ∧
    executeSwapMinAmountOut a (some 0) = computeMinAmountOut a 100 := by
  refine ⟨calculateSlippage_eq_computeMinAmountOut_add a b hb, ?_, rfl⟩
  intro hb1
  exact executeSwapMinAmountOut_eq_computeMinAmountOut a b hb1

/-- C1 witness: the amended statement instantiated at
`quotedAmountOut = 1001`, `maxSlippageBps = 100`. -/
theorem c1_minAmountOut_realisations_witness :
    (100 ≤ 10000) ∧
    (calculateSlippage 1001 100 =
        computeMinAmountOut 1001 100 + (if 10000 ∣ 1001 * 100 then 0 else 1) ∧
      (1 ≤ 100 → executeSwapMinAmountOut 1001 (some 100) = computeMinAmountOut 1001 100) ∧
      executeSwapMinAmountOut 1001 (some 0) = computeMinAmountOut 1001 100) :=
  ⟨by decide, c1_minAmountOut_realisations 1001 100 (by decide)⟩

/-- C5: the boundary values of the slippage calculator `calculateSlippage`:
full-range slippage gives `0`, zero slippage gives the quoted amount back, and
the spec's three concrete examples hold. -/
theorem c5_calculateSlippage_boundary_values (q : ℕ) :
    calculateSlippage q 10000 = 0 ∧ calculateSlippage q 0 = q ∧
    calculateSlippage 1000 0 = 1000 ∧ calculateSlippage 1000 10000 = 0 ∧
    calculateSlippage 1000 100 = 990 := by
  unfold calculateSlippage
  omega

/-- C6: for `maxSlippageBps ∈ [0,10000]` the minimum acceptable output never
exceeds the quoted amount, both for the utility `calculateSlippage` and for
`executeSwap`'s inline computation. -/
theorem c6_minAmountOut_le_quoted (a b : ℕ) (_hb : b ≤ 10000) :
    calculateSlippage a b ≤ a ∧ executeSwapMinAmountOut a (some b) ≤ a := by
  constructor
  · exact Nat.sub_le _ _
  · unfold executeSwapMinAmountOut
    generalize executeSwapSlippageTolerance (some b) = t
    have h : a * (10000 - t) ≤ a * 10000 :=
      Nat.mul_le_mul (le_refl a) (Nat.sub_le 10000 t)
    omega

/-- C6 witness: instantiated at `amount = 12345`, `maxSlippageBps = 250`. -/
theorem c6_minAmountOut_le_quoted_witness :
    (250 ≤ 10000) ∧
    (calculateSlippage 12345 250 ≤ 12345 ∧
      executeSwapMinAmountOut 12345 (some 250) ≤ 12345) :=
  ⟨by decide, c6_minAmountOut_le_quoted 12345 250 (by decide)⟩

/-- C9 counterexample: the utility `calculateSlippage` and the inline
`minAmountOut` computation of `executeSwap` disagree at
`amount = 1001`, `slippageBps = 100`: `991` against `990`. -/
theorem c9_counterexample :
    calculateSlippage 1001 100 = 991 ∧
    executeSwapMinAmountOut 1001 (some 100) = 990 := by
  decide

/-- C9 (amended): for `slippageBps ∈ [1,10000]`, `calculateSlippage` exceeds
`executeSwap`'s inline `minAmountOut` by exactly one unless `10000` divides
`amount * slippageBps`, in which case the two agree; at `slippageBps = 0` they
also differ because `executeSwap` replaces `0` by the default `100`. -/
theorem c9_calculateSlippage_executeSwap_relation (a b : ℕ)
    (h1 : 1 ≤ b) (h2 : b ≤ 10000) :
    calculateSlippage a b =
      executeSwapMinAmountOut a (some b) + (if 10000 ∣ a * b then 0 else 1) ∧
    (10000 ∣ a * b → calculateSlippage a b = executeSwapMinAmountOut a (some b)) := by
  have he := executeSwapMinAmountOut_eq_computeMinAmountOut a b h1
  have hc := calculateSlippage_eq_computeMinAmountOut_add a b h2
  constructor
  · rw [he]
    exact hc
  · intro hd
    rw [he, hc, if_pos hd]
    omega

/-- C9 witness: instantiated at `amount = 400`, `slippageBps = 250`, where
`400 * 250` is divisible by `10000` and both computations return `390`. -/
theorem c9_calculateSlippage_executeSwap_relation_witness :
    (1 ≤ 250) ∧ (250 ≤ 10000) ∧
    (calculateSlippage 400 250 =
        executeSwapMinAmountOut 400 (some 250) + (if 10000 ∣ 400 * 250 then 0 else 1) ∧
      (10000 ∣ 400 * 250 →
        calculateSlippage 400 250 = executeSwapMinAmountOut 400 (some 250))) :=
  ⟨by decide, by decide,
    c9_calculateSlippage_executeSwap_relation 400 250 (by decide) (by decide)⟩

/-- C10: `executeSwap` applies the default tolerance of `100` basis points
whenever `params.maxSlippageBps` is `0` or absent, so the `minAmountOut` sent
to the vendor is `simulatedAmountOut * 9900 / 10000`; no caller can obtain a
zero slippage tolerance. -/
theorem c10_executeSwap_zero_slippage_default (simOut : ℕ) :
    executeSwapSlippageTolerance (some 0) = 100 ∧
    executeSwapSlippageTolerance none = 100 ∧
    executeSwapMinAmountOut simOut (some 0) = simOut * 9900 / 10000 ∧
    executeSwapMinAmountOut simOut none = simOut * 9900 / 10000 ∧
    (∀ p : Option ℕ, executeSwapSlippageTolerance p ≠ 0) := by
  refine ⟨rfl, rfl, rfl, rfl, ?_⟩
  intro p
  rcases p with _ | b
  · simp [executeSwapSlippageTolerance]
  · by_cases hb : b = 0 <;> simp [executeSwapSlippageTolerance, hb]

/-- C2 (spec-modelled): any violation of the input constraints — in particular
any `graduationThresholdPct` outside `[50,95]` — makes `deriveVirtualReserves`
fail with `InvalidParameters` instead of returning a `VirtualReserves` value. -/
theorem c2_deriveVirtualReserves_invalid_inputs (i p t : ℕ)
    (h : i < 1 ∨ p < 50 ∨ 95 < p ∨ t < 1) :
    deriveVirtualReserves i p t = .error .InvalidParameters := by
  unfold deriveVirtualReserves
  rw [if_pos h]

/-- C2 witness: `graduationThresholdPct = 49` is rejected. -/
theorem c2_deriveVirtualReserves_invalid_inputs_witness :
    ((1000000 : ℕ) < 1 ∨ (49 : ℕ) < 50 ∨ 95 < (49 : ℕ) ∨ (100000000 : ℕ) < 1) ∧
    deriveVirtualReserves 1000000 49 100000000 = .error .InvalidParameters :=
  ⟨by decide,
    c2_deriveVirtualReserves_invalid_inputs 1000000 49 100000000 (by decide)⟩

/-- C7 (spec-modelled): for all valid launch inputs, `deriveVirtualReserves`
succeeds and the returned graduation threshold quantity never exceeds the
initial supply. -/
theorem c7_threshold_le_initialSupply (i p t : ℕ)
    (hi : 1 ≤ i) (hp1 : 50 ≤ p) (hp2 : p ≤ 95) (ht : 1 ≤ t) :
    ∃ vr : VirtualReserves,
      deriveVirtualReserves i p t = .ok vr ∧ vr.threshold ≤ i := by
  have hvalid : ¬ (i < 1 ∨ p < 50 ∨ 95 < p ∨ t < 1) := by omega
  refine ⟨{ virtualReserveA := i, virtualReserveB := t * (100 - p) / p,
            threshold := i * p / 100 }, ?_, ?_⟩
  · unfold deriveVirtualReserves
    rw [if_neg hvalid]
  · show i * p / 100 ≤ i
    have h : i * p ≤ i * 100 := Nat.mul_le_mul (le_refl i) (by omega)
    omega

/-- C7 witness: the spec's scenario `initialSupply = 1000000`,
`graduationThresholdPct = 80`, `targetRaise = 100000000`. -/
theorem c7_threshold_le_initialSupply_witness :
    ((1 : ℕ) ≤ 1000000) ∧ ((50 : ℕ) ≤ 80) ∧ ((80 : ℕ) ≤ 95) ∧
    ((1 : ℕ) ≤ 100000000) ∧
    (∃ vr : VirtualReserves,
      deriveVirtualReserves 1000000 80 100000000 = .ok vr ∧ vr.threshold ≤ 1000000) :=
  ⟨by decide, by decide, by decide, by decide,
    c7_threshold_le_initialSupply 1000000 80 100000000
      (by decide) (by decide) (by decide) (by decide)⟩

/-- Unfolding lemma for `calculatePriceImpact`. -/
theorem calculatePriceImpact_def (aIn aOut rIn rOut : ℕ) :
    calculatePriceImpact aIn aOut rIn rOut =
      .ok (JsNum.abs (JsNum.mul (JsNum.div
        (JsNum.sub (JsNum.div (JsNum.mul (.fin aIn) (.fin rOut)) (.fin rIn)) (.fin aOut))
        (JsNum.div (JsNum.mul (.fin aIn) (.fin rOut)) (.fin rIn))) (.fin 100))) := rfl

/-- C3: with `reserveIn ≠ 0` and `expectedOut ≠ 0` (equivalently
`amountIn * reserveOut ≠ 0`), `calculatePriceImpact` returns the finite value
`|expectedOut - amountOut| / expectedOut * 100` where
`expectedOut = amountIn * reserveOut / reserveIn`, and that value is
non-negative. -/
theorem c3_priceImpact_formula (aIn aOut rIn rOut : ℕ)
    (hr : rIn ≠ 0) (he : aIn * rOut ≠ 0) :
    calculatePriceImpact aIn aOut rIn rOut =
      .ok (.fin (|(aIn : ℚ) * rOut / rIn - aOut| / ((aIn : ℚ) * rOut / rIn) * 100)) ∧
    0 ≤ |(aIn : ℚ) * rOut / rIn - aOut| / ((aIn : ℚ) * rOut / rIn) * 100 := by
  have hrQ : (rIn : ℚ) ≠ 0 := Nat.cast_ne_zero.mpr hr
  have hrPos : (0 : ℚ) < rIn := by
    exact_mod_cast Nat.pos_of_ne_zero hr
  have hpPos : (0 : ℚ) < (aIn : ℚ) * rOut := by
    exact_mod_cast Nat.pos_of_ne_zero he
  have hePos : (0 : ℚ) < (aIn : ℚ) * rOut / rIn := div_pos hpPos hrPos
  have heQ : (aIn : ℚ) * rOut / rIn ≠ 0 := ne_of_gt hePos
  constructor
  · rw [calculatePriceImpact_def, JsNum.mul_fin_fin, JsNum.div_fin_fin, if_neg hrQ,
      JsNum.sub_fin_fin, JsNum.div_fin_fin, if_neg heQ, JsNum.mul_fin_fin, JsNum.abs_fin,
      abs_mul, abs_div, abs_of_pos hePos, abs_of_pos (show (0 : ℚ) < 100 by norm_num)]
  · positivity

/-- C3 witness: instantiated at `amountIn = 10`, `amountOut = 9`,
`reserveIn = 100`, `reserveOut = 50`. -/
theorem c3_priceImpact_formula_witness :
    ((100 : ℕ) ≠ 0) ∧ ((10 * 50 : ℕ) ≠ 0) ∧
    (calculatePriceImpact 10 9 100 50 =
        .ok (.fin (|((10 : ℕ) : ℚ) * ((50 : ℕ) : ℚ) / ((100 : ℕ) : ℚ) - ((9 : ℕ) : ℚ)| /
          (((10 : ℕ) : ℚ) * ((50 : ℕ) : ℚ) / ((100 : ℕ) : ℚ)) * 100)) ∧
      0 ≤ |((10 : ℕ) : ℚ) * ((50 : ℕ) : ℚ) / ((100 : ℕ) : ℚ) - ((9 : ℕ) : ℚ)| /
          (((10 : ℕ) : ℚ) * ((50 : ℕ) : ℚ) / ((100 : ℕ) : ℚ)) * 100) :=
  ⟨by decide, by decide, c3_priceImpact_formula 10 9 100 50 (by decide) (by decide)⟩

/-- C4 counterexample: at `amountIn = 1`, `amountOut = 1`, `reserveIn = 0`,
`reserveOut = 1` the code does not signal `DivisionByZero`: it returns the
numeric value `NaN` through the ordinary return path. -/
theorem c4_counterexample :
    calculatePriceImpact 1 1 0 1 = .ok .nan ∧
    calculatePriceImpact 1 1 0 1 ≠ .error .DivisionByZero := by
  constructor
  · rw [calculatePriceImpact_def, JsNum.mul_fin_fin, JsNum.div_fin_fin,
      if_pos (by norm_num : ((0 : ℕ) : ℚ) = 0),
      if_neg (by norm_num : ¬ (((1 : ℕ) : ℚ) * ((1 : ℕ) : ℚ) = 0)),
      decide_eq_false (not_lt.mpr (by positivity : (0 : ℚ) ≤ ((1 : ℕ) : ℚ) * ((1 : ℕ) : ℚ))),
      JsNum.sub_inf_fin, JsNum.div_inf_inf, JsNum.mul_nan_left, JsNum.abs_nan]
  · intro h
    exact Except.noConfusion h

/-- C4 (amended): on the degenerate inputs `calculatePriceImpact` never
signals an error; it returns a non-finite IEEE value: `NaN` whenever
`reserveIn = 0`, and — when `reserveIn ≠ 0` but `expectedOut = 0` — `NaN` for
`amountOut = 0` and `+Infinity` otherwise.  The caller receives these values
through the ordinary (non-error) return path. -/
theorem c4_priceImpact_degenerate_values (aIn aOut rIn rOut : ℕ) :
    (rIn = 0 → calculatePriceImpact aIn aOut rIn rOut = .ok .nan) ∧
    (rIn ≠ 0 → aIn * rOut = 0 →
      calculatePriceImpact aIn aOut rIn rOut =
        .ok (if aOut = 0 then .nan else .inf false)) := by
  constructor
  · intro h0
    subst h0
    rw [calculatePriceImpact_def]
    have hE : JsNum.div (JsNum.mul (.fin (aIn : ℚ)) (.fin (rOut : ℚ))) (.fin ((0 : ℕ) : ℚ)) =
        (if (aIn : ℚ) * rOut = 0 then JsNum.nan else JsNum.inf false) := by
      rw [JsNum.mul_fin_fin, JsNum.div_fin_fin, if_pos (by norm_num : ((0 : ℕ) : ℚ) = 0)]
      by_cases hp : (aIn : ℚ) * rOut = 0
      · rw [if_pos hp, if_pos hp]
      · rw [if_neg hp, if_neg hp,
          decide_eq_false (not_lt.mpr (by positivity : (0 : ℚ) ≤ (aIn : ℚ) * rOut))]
    rw [hE]
    by_cases hp : (aIn : ℚ) * rOut = 0
    · rw [if_pos hp, JsNum.sub_nan_left, JsNum.div_nan_left, JsNum.mul_nan_left, JsNum.abs_nan]
    · rw [if_neg hp, JsNum.sub_inf_fin, JsNum.div_inf_inf, JsNum.mul_nan_left, JsNum.abs_nan]
  · intro hr hp
    have hrQ : (rIn : ℚ) ≠ 0 := Nat.cast_ne_zero.mpr hr
    have hpQ : (aIn : ℚ) * rOut = 0 := by
      have h1 : ((aIn * rOut : ℕ) : ℚ) = 0 := by
        rw [hp]
        norm_num
      push_cast at h1
      exact h1
    rw [calculatePriceImpact_def, JsNum.mul_fin_fin, JsNum.div_fin_fin, if_neg hrQ, hpQ,
      zero_div, JsNum.sub_fin_fin, JsNum.div_fin_fin, if_pos (rfl : (0 : ℚ) = 0)]
    by_cases ha : aOut = 0
    · subst ha
      rw [if_pos (by norm_num : (0 : ℚ) - ((0 : ℕ) : ℚ) = 0), JsNum.mul_nan_left,
        JsNum.abs_nan, if_pos rfl]
    · have haPos : (0 : ℚ) < (aOut : ℚ) := by
        exact_mod_cast Nat.pos_of_ne_zero ha
      have hne : (0 : ℚ) - (aOut : ℚ) ≠ 0 := by
        intro hh
        linarith
      rw [if_neg hne, decide_eq_true (by linarith : (0 : ℚ) - (aOut : ℚ) < 0),
        JsNum.mul_inf_fin, if_neg (by norm_num : ¬ ((100 : ℚ) = 0)),
        decide_eq_false (not_lt.mpr (by norm_num : (0 : ℚ) ≤ 100)), JsNum.abs_inf,
        if_neg ha]

/-- C4 witness: the amended statement instantiated at `reserveIn = 0`
(result `NaN`) and at `reserveIn = 7`, `reserveOut = 0`, `amountOut = 5`
(result `+Infinity`). -/
theorem c4_priceImpact_degenerate_values_witness :
    calculatePriceImpact 2 3 0 5 = .ok .nan ∧
    calculatePriceImpact 4 5 7 0 = .ok (if (5 : ℕ) = 0 then .nan else .inf false) :=
  ⟨(c4_priceImpact_degenerate_values 2 3 0 5).1 rfl,
    (c4_priceImpact_degenerate_values 4 5 7 0).2 (by decide) (by decide)⟩

/-- C8 (spec-modelled): `calculateVirtualReserves` is pure: a second call with
identical inputs — from whatever client state the first call left behind —
returns the same result, the call leaves the client state unchanged, and the
result does not depend on the client state at all. -/
theorem c8_calculateVirtualReserves_idempotent (s : ClientState) (i p t : ℕ) :
    (calculateVirtualReservesCall (calculateVirtualReservesCall s i p t).2 i p t).1 =
      (calculateVirtualReservesCall s i p t).1 ∧
    (calculateVirtualReservesCall s i p t).2 = s ∧
    ∀ s' : ClientState,
      (calculateVirtualReservesCall s i p t).1 = (calculateVirtualReservesCall s' i p t).1 :=
  ⟨rfl, rfl, fun _ => rfl⟩

end BtcLaunchpad
